import Mathlib

/-!
Shallow embedding of `crates/indent_size_selector` (files
`indent_size_selector.rs` and `indentation.rs`): the selection state of the
picker delegate, its match-filtering and confirmation operations, and the
status-bar indentation reader.  UI plumbing (rendering, focus, modal
wiring) is out of scope; the state mutations and the effects of `confirm`
(settings writes, log lines, the dismissal event) are modelled explicitly.
-/

/-- Embeds `fuzzy::StringMatchCandidate`: an id (doubling as the indent
width, or the toggle sentinel) and a label string. -/
structure StringMatchCandidate where
  id : Nat
  string : String
deriving DecidableEq, Repr

/-- Embeds `fuzzy::StringMatch`: candidate id, label text, matched character
positions, and a relevance score.  The source stores the score as `f64`;
only the literal `0.0` appears in this crate, embedded here as `ℚ`. -/
structure StringMatch where
  candidate_id : Nat
  string : String
  positions : List Nat
  score : ℚ
deriving DecidableEq, Repr

/-- Embeds `settings::LocalSettingsKind` (the variants of the enum in the
settings crate; this crate only ever uses `Editorconfig`). -/
inductive LocalSettingsKind where
  | Settings
  | Tasks
  | Editorconfig
  | Debug
deriving DecidableEq, Repr

/-- Embeds the `language::File` capability as used here: the owning
worktree id and the worktree-relative path. -/
structure File where
  worktree_id : Nat
  path : String
deriving DecidableEq, Repr

/-- Embeds the buffer as consulted by `read_indent_size`: an optional
associated language (by name) and an optional file. -/
structure Buffer where
  language : Option String
  file : Option File
deriving DecidableEq, Repr

/-- Embeds the `editor::Editor` capabilities this crate consumes:
`editor.file_at(Point::zero(), cx)` and `editor.active_excerpt(cx)`
(of which only the buffer component is used). -/
structure Editor where
  file_at_zero : Option File
  active_excerpt : Option Buffer
deriving DecidableEq, Repr

/-- Embeds `language::IndentKind`. -/
inductive IndentKind where
  | Space
  | Tab
deriving DecidableEq, Repr

/-- Embeds `language::IndentSize` as used here: a length and a kind. -/
structure IndentSize where
  len : Nat
  kind : IndentKind
deriving DecidableEq, Repr

/-- Embeds the `{tab_size, hard_tabs}` projection of
`language::language_settings::LanguageSettings` that `read_indent_size`
reads. -/
structure LanguageSettings where
  tab_size : Nat
  hard_tabs : Bool
deriving DecidableEq, Repr

/-- Embeds the state of `IndentSizeSelectorDelegate`: the candidate list,
the current matches, the selected index, and the editor handle.  The weak
handle back to the selector entity is modelled as always upgradable, so
`dismissed` always delivers its `DismissEvent`. -/
structure DelegateState where
  editor : Editor
  candidates : List StringMatchCandidate
  matchList : List StringMatch
  selected_index : Nat
deriving DecidableEq, Repr

namespace IndentSizeSelectorDelegate

/-- Embeds the candidate vector built in `IndentSizeSelectorDelegate::new`. -/
def defaultCandidates : List StringMatchCandidate :=
  [⟨16, "Toggle Spaces/Tabs"⟩, ⟨2, "2 spaces"⟩, ⟨4, "4 spaces"⟩, ⟨8, "8 spaces"⟩]

/-- Embeds `IndentSizeSelectorDelegate::new`: fresh state with the fixed
candidates, no matches, and `selected_index = 0`. -/
def new (editor : Editor) : DelegateState :=
  { editor := editor
    candidates := defaultCandidates
    matchList := []
    selected_index := 0 }

/-- Embeds `IndentSizeSelectorDelegate::set_selected_index`: stores the
given index directly, with no clamping. -/
def set_selected_index (s : DelegateState) (ix : Nat) : DelegateState :=
  { s with selected_index := ix }

/-- Embeds `IndentSizeSelectorDelegate::match_count`. -/
def match_count (s : DelegateState) : Nat :=
  s.matchList.length

end IndentSizeSelectorDelegate

/-- Greedy case-insensitive subsequence matcher: positions (from offset `i`)
of the query characters inside the label, or `none` when the query is not
a subsequence.  Helper for the spec-modelled `match_strings` below. -/
def subseqPositions : List Char → List Char → Nat → Option (List Nat)
  | [], _, _ => some []
  | _ :: _, [], _ => none
  | q :: qs, c :: cs, i =>
    if q.toLower = c.toLower then
      (subseqPositions qs cs (i + 1)).map fun ps => i :: ps
    else
      subseqPositions (q :: qs) cs (i + 1)

/-- Modelled from the spec: `fuzzy::match_strings` lives in the `fuzzy`
crate of this repository, which is not under `src/`.  Per the spec it is a
deterministic case-insensitive substring/subsequence scorer over candidate
labels that annotates each result with the matched character positions,
"never returns more than the requested cap" of results, and "never returns
a result for a candidate with zero matching characters under the query".
The concrete ranking and score values are abstracted (score fixed to 1
here); no claim depends on them. -/
def match_strings (candidates : List StringMatchCandidate) (query : String)
    (maxResults : Nat) : List StringMatch :=
  (candidates.filterMap fun c =>
    (subseqPositions query.toList c.string.toList 0).map fun ps =>
      { candidate_id := c.id, string := c.string, positions := ps, score := 1 }).take
    maxResults

namespace IndentSizeSelectorDelegate

/-- Embeds the background computation inside
`IndentSizeSelectorDelegate::update_matches`: the empty-query fast path
maps each candidate to a `StringMatch` with empty positions and score `0.0`;
a non-empty query goes through `match_strings` with a cap of 100. -/
def updateMatchesResult (candidates : List StringMatchCandidate)
    (query : String) : List StringMatch :=
  if query.isEmpty then
    candidates.map fun candidate =>
      { candidate_id := candidate.id
        string := candidate.string
        positions := []
        score := 0 }
  else
    match_strings candidates query 100

/-- Embeds the completion handler of `update_matches` (the `this.update`
closure): stores the delivered matches and clamps `selected_index` to
`selected_index.min(matches.len().saturating_sub(1))`.  Natural-number
subtraction is saturating, matching `saturating_sub`. -/
def filter_complete (s : DelegateState) (m : List StringMatch) : DelegateState :=
  { s with
    matchList := m
    selected_index := min s.selected_index (m.length - 1) }

/-- Embeds a full `update_matches` round trip: compute the matches for the
query over the candidates of the delegate, then run the completion handler. -/
def update_matches (s : DelegateState) (query : String) : DelegateState :=
  filter_complete s (updateMatchesResult s.candidates query)

end IndentSizeSelectorDelegate

/-- One `SettingsStore::set_local_settings` call as issued by `confirm`. -/
structure SettingsWrite where
  worktree_id : Nat
  path : String
  kind : LocalSettingsKind
  config : Option String
deriving DecidableEq, Repr

/-- Observable outcome of `confirm`: the settings writes issued, the log
lines produced, whether the dismissal event was emitted, and the delegate
state afterwards. -/
structure ConfirmOutcome where
  writes : List SettingsWrite
  logs : List String
  dismissed : Bool
  state : DelegateState
deriving DecidableEq, Repr

namespace IndentSizeSelectorDelegate

/-- The `format!` string built in `confirm` for a chosen candidate id. -/
def configText (indent_size : Nat) : String :=
  "[/**]\nindent_size = " ++ toString indent_size ++
    "\nindent_style = space\ntab_width=" ++ toString indent_size

/-- Embeds `IndentSizeSelectorDelegate::confirm`.  `writeResult` is the
outcome of the external `set_local_settings` call when one is issued; the
`inspect_err` arm logs a failure and discards it.  If no match sits at
`selected_index`, or the editor has no file at `Point::zero()`, no write is
issued.  `dismissed` is always called at the end, emitting the dismissal
event. -/
def confirm (s : DelegateState) (writeResult : Except String Unit) :
    ConfirmOutcome :=
  match s.matchList[s.selected_index]? with
  | none => { writes := [], logs := [], dismissed := true, state := s }
  | some mat =>
    let indent_size := mat.candidate_id
    match s.editor.file_at_zero with
    | none => { writes := [], logs := [], dismissed := true, state := s }
    | some file =>
      { writes := [{ worktree_id := file.worktree_id
                     path := file.path
                     kind := LocalSettingsKind.Editorconfig
                     config := some (configText indent_size) }]
        logs :=
          match writeResult with
          | Except.ok _ => []
          | Except.error e => ["set_indent failed: " ++ e]
        dismissed := true
        state := s }

/-- Reachable delegate states: start at `new` for any editor, step by the
`update_matches` completion delivering any match list, by
`set_selected_index` with a caller-validated in-range index, or by
`confirm` (whose state component is unchanged). -/
inductive Reachable : DelegateState → Prop where
  | init (e : Editor) : Reachable (new e)
  | filter_done {s : DelegateState} (m : List StringMatch) :
      Reachable s → Reachable (filter_complete s m)
  | select {s : DelegateState} (ix : Nat) :
      ix < s.matchList.length → Reachable s → Reachable (set_selected_index s ix)
  | confirmed {s : DelegateState} (r : Except String Unit) :
      Reachable s → Reachable ((confirm s r).state)

end IndentSizeSelectorDelegate

/-- Embeds `read_indent_size` from `indent_size_selector.rs`.  The external
`language_settings` resolver is passed in as a function; the source asks it
for the language name of the buffer and file.  With no active excerpt, or a
buffer with no associated language, the result is `none`. -/
def read_indent_size (editor : Editor)
    (language_settings : Option String → Option File → LanguageSettings) :
    Option IndentSize :=
  editor.active_excerpt.bind fun buffer =>
    buffer.language.map fun language =>
      let settings := language_settings (some language) buffer.file
      { len := settings.tab_size
        kind :=
          match settings.hard_tabs with
          | false => IndentKind.Space
          | true => IndentKind.Tab }

open IndentSizeSelectorDelegate

/-- Helper: `confirm` leaves the delegate state unchanged; it only issues
effects. -/
theorem confirm_state_eq (s : DelegateState) (r : Except String Unit) :
    (confirm s r).state = s := by
  unfold confirm
  cases s.matchList[s.selected_index]? with
  | none => rfl
  | some mat => cases s.editor.file_at_zero <;> rfl

/-- C1: every reachable delegate state (from the initial state, stepping by
`update_matches` completions, caller-validated `set_selected_index`, and
`confirm`) has `selected_index` a valid index into the matches, or 0 when
the matches are empty. -/
theorem reachable_selected_index_valid (s : DelegateState)
    (h : Reachable s) :
    s.selected_index < s.matchList.length
      ∨ (s.matchList = [] ∧ s.selected_index = 0) := by
  induction h with
  | init e => exact Or.inr ⟨rfl, rfl⟩
  | filter_done m h ih =>
    cases m with
    | nil => right; simp [filter_complete]
    | cons a l =>
      left
      simp [filter_complete]
  | select ix hix h ih =>
    left
    simpa [set_selected_index] using hix
  | confirmed r h ih =>
    rw [confirm_state_eq]
    exact ih

/-- Witness for C1: the invariant holds at the freshly constructed delegate
state. -/
theorem reachable_selected_index_valid_witness :
    (new { file_at_zero := none, active_excerpt := none }).selected_index <
        (new { file_at_zero := none, active_excerpt := none }).matchList.length
      ∨ ((new { file_at_zero := none, active_excerpt := none }).matchList = []
        ∧ (new { file_at_zero := none, active_excerpt := none }).selected_index = 0) :=
  reachable_selected_index_valid _
    (Reachable.init { file_at_zero := none, active_excerpt := none })

/-- C2: confirming a selection whose matched candidate id is `n` (the
toggle sentinel 16 included), on an editor whose file resolves to worktree
`W` and relative path `P`, issues exactly one settings write, for `(W, P)`,
of kind `Editorconfig`, whose config text is the editorconfig fragment
with `indent_size = n`, `indent_style = space` and `tab_width=n`. -/
theorem confirm_writes_editorconfig (s : DelegateState) (mat : StringMatch)
    (n : Nat) (f : File) (r : Except String Unit)
    (hmat : s.matchList[s.selected_index]? = some mat)
    (hid : mat.candidate_id = n)
    (hf : s.editor.file_at_zero = some f) :
    (confirm s r).writes =
      [{ worktree_id := f.worktree_id
         path := f.path
         kind := LocalSettingsKind.Editorconfig
         config := some ("[/**]\nindent_size = " ++ toString n ++
           "\nindent_style = space\ntab_width=" ++ toString n) }] := by
  simp [confirm, configText, hmat, hf, hid]

/-- Witness for C2: confirming candidate id 4 on a file `src/main.rs` in
worktree 1 writes the expected editorconfig fragment. -/
theorem confirm_writes_editorconfig_witness :
    (confirm
        { editor :=
            { file_at_zero := some { worktree_id := 1, path := "src/main.rs" }
              active_excerpt := none }
          candidates := defaultCandidates
          matchList := [{ candidate_id := 4, string := "4 spaces",
                          positions := [], score := 0 }]
          selected_index := 0 }
        (Except.ok ())).writes =
      [{ worktree_id := 1
         path := "src/main.rs"
         kind := LocalSettingsKind.Editorconfig
         config := some ("[/**]\nindent_size = " ++ toString 4 ++
           "\nindent_style = space\ntab_width=" ++ toString 4) }] :=
  confirm_writes_editorconfig
    { editor :=
        { file_at_zero := some { worktree_id := 1, path := "src/main.rs" }
          active_excerpt := none }
      candidates := defaultCandidates
      matchList := [{ candidate_id := 4, string := "4 spaces",
                      positions := [], score := 0 }]
      selected_index := 0 }
    { candidate_id := 4, string := "4 spaces", positions := [], score := 0 }
    4 { worktree_id := 1, path := "src/main.rs" } (Except.ok ()) rfl rfl rfl

/-- C3: confirming with an empty match list performs no settings write and
still emits the dismissal event. -/
theorem confirm_empty_matches (s : DelegateState) (r : Except String Unit)
    (h : s.matchList = []) :
    (confirm s r).writes = [] ∧ (confirm s r).dismissed = true := by
  simp [confirm, h]

/-- Witness for C3: a freshly constructed delegate has empty matches, and
confirming it writes nothing while still dismissing. -/
theorem confirm_empty_matches_witness :
    (confirm (new { file_at_zero := none, active_excerpt := none })
        (Except.ok ())).writes = []
      ∧ (confirm (new { file_at_zero := none, active_excerpt := none })
        (Except.ok ())).dismissed = true :=
  confirm_empty_matches _ (Except.ok ()) rfl

/-- C8: when the settings write fails, the error is logged, swallowed (the
outcome carries no error), and the writes issued and the dismissal event
are exactly as in the success case; the success case logs nothing. -/
theorem confirm_write_error_swallowed (s : DelegateState) (e : String)
    (mat : StringMatch) (f : File)
    (hmat : s.matchList[s.selected_index]? = some mat)
    (hf : s.editor.file_at_zero = some f) :
    (confirm s (Except.error e)).writes = (confirm s (Except.ok ())).writes
      ∧ (confirm s (Except.error e)).dismissed
        = (confirm s (Except.ok ())).dismissed
      ∧ (confirm s (Except.error e)).dismissed = true
      ∧ (confirm s (Except.error e)).logs = ["set_indent failed: " ++ e]
      ∧ (confirm s (Except.ok ())).logs = [] := by
  simp [confirm, hmat, hf]

/-- Witness for C8: a failing write on a concrete selection logs the error
and dismisses just as the succeeding write does. -/
theorem confirm_write_error_swallowed_witness :
    (confirm
        { editor :=
            { file_at_zero := some { worktree_id := 0, path := "a.txt" }
              active_excerpt := none }
          candidates := defaultCandidates
          matchList := [{ candidate_id := 2, string := "2 spaces",
                          positions := [], score := 0 }]
          selected_index := 0 }
        (Except.error "disk full")).writes =
      (confirm
        { editor :=
            { file_at_zero := some { worktree_id := 0, path := "a.txt" }
              active_excerpt := none }
          candidates := defaultCandidates
          matchList := [{ candidate_id := 2, string := "2 spaces",
                          positions := [], score := 0 }]
          selected_index := 0 }
        (Except.ok ())).writes
      ∧ (confirm
        { editor :=
            { file_at_zero := some { worktree_id := 0, path := "a.txt" }
              active_excerpt := none }
          candidates := defaultCandidates
          matchList := [{ candidate_id := 2, string := "2 spaces",
                          positions := [], score := 0 }]
          selected_index := 0 }
        (Except.error "disk full")).dismissed =
      (confirm
        { editor :=
            { file_at_zero := some { worktree_id := 0, path := "a.txt" }
              active_excerpt := none }
          candidates := defaultCandidates
          matchList := [{ candidate_id := 2, string := "2 spaces",
                          positions := [], score := 0 }]
          selected_index := 0 }
        (Except.ok ())).dismissed
      ∧ (confirm
        { editor :=
            { file_at_zero := some { worktree_id := 0, path := "a.txt" }
              active_excerpt := none }
          candidates := defaultCandidates
          matchList := [{ candidate_id := 2, string := "2 spaces",
                          positions := [], score := 0 }]
          selected_index := 0 }
        (Except.error "disk full")).dismissed = true
      ∧ (confirm
        { editor :=
            { file_at_zero := some { worktree_id := 0, path := "a.txt" }
              active_excerpt := none }
          candidates := defaultCandidates
          matchList := [{ candidate_id := 2, string := "2 spaces",
                          positions := [], score := 0 }]
          selected_index := 0 }
        (Except.error "disk full")).logs = ["set_indent failed: " ++ "disk full"]
      ∧ (confirm
        { editor :=
            { file_at_zero := some { worktree_id := 0, path := "a.txt" }
              active_excerpt := none }
          candidates := defaultCandidates
          matchList := [{ candidate_id := 2, string := "2 spaces",
                          positions := [], score := 0 }]
          selected_index := 0 }
        (Except.ok ())).logs = [] :=
  confirm_write_error_swallowed _ "disk full" _ _ rfl rfl

/-- C10: confirming with a non-empty match list and a valid selected index,
but an editor with no file at the buffer start, performs no settings write
and still emits the dismissal event. -/
theorem confirm_no_file (s : DelegateState) (r : Except String Unit)
    (hix : s.selected_index < s.matchList.length)
    (hf : s.editor.file_at_zero = none) :
    (confirm s r).writes = [] ∧ (confirm s r).dismissed = true := by
  have hmat : s.matchList[s.selected_index]?
      = some (s.matchList[s.selected_index]) :=
    List.getElem?_eq_getElem hix
  simp [confirm, hmat, hf]

/-- Witness for C10: a concrete selection on a fileless editor writes
nothing and dismisses. -/
theorem confirm_no_file_witness :
    (confirm
        { editor := { file_at_zero := none, active_excerpt := none }
          candidates := defaultCandidates
          matchList := [{ candidate_id := 8, string := "8 spaces",
                          positions := [], score := 0 }]
          selected_index := 0 }
        (Except.ok ())).writes = []
      ∧ (confirm
        { editor := { file_at_zero := none, active_excerpt := none }
          candidates := defaultCandidates
          matchList := [{ candidate_id := 8, string := "8 spaces",
                          positions := [], score := 0 }]
          selected_index := 0 }
        (Except.ok ())).dismissed = true :=
  confirm_no_file _ (Except.ok ()) (by decide) rfl

/-- C4: filtering with the empty query returns exactly the candidates in
their original order, each result carrying the candidate id and label,
an empty matched-positions list, and score 0, via the pass-through branch
rather than `match_strings`. -/
theorem filter_empty_query_passthrough (candidates : List StringMatchCandidate) :
    updateMatchesResult candidates "" =
      candidates.map fun candidate =>
        { candidate_id := candidate.id
          string := candidate.string
          positions := []
          score := 0 } := rfl

/-- C5: every completion of `update_matches` clamps the stored selection to
`min(old, len - 1)` with saturation at 0, and afterwards the selection is a
valid index or the matches are empty with selection 0. -/
theorem filter_complete_clamps (s : DelegateState) (m : List StringMatch) :
    (filter_complete s m).selected_index = min s.selected_index (m.length - 1)
      ∧ ((filter_complete s m).selected_index
            < (filter_complete s m).matchList.length
        ∨ ((filter_complete s m).matchList = []
            ∧ (filter_complete s m).selected_index = 0)) := by
  refine ⟨rfl, ?_⟩
  cases m with
  | nil => right; simp [filter_complete]
  | cons a l => left; simp [filter_complete]

/-- C6: for every query, empty or not, running `update_matches` over the
fixed candidate list of the delegate yields at most 100 matches. -/
theorem update_matches_length_le_100 (s : DelegateState) (query : String)
    (h : s.candidates = defaultCandidates) :
    (update_matches s query).matchList.length ≤ 100 := by
  have : (update_matches s query).matchList
      = updateMatchesResult defaultCandidates query := by
    simp [update_matches, filter_complete, h]
  rw [this]
  unfold updateMatchesResult
  split
  · simp [defaultCandidates]
  · simp [match_strings]

/-- Witness for C6: the bound holds for a fresh delegate and the query
string used by the scenario in the spec. -/
theorem update_matches_length_le_100_witness :
    (update_matches (new { file_at_zero := none, active_excerpt := none })
        "8").matchList.length ≤ 100 :=
  update_matches_length_le_100
    (new { file_at_zero := none, active_excerpt := none }) "8" rfl

/-- C7: if the buffer of the active excerpt has no associated language,
`read_indent_size` returns `none`, whatever the external settings resolver
would answer. -/
theorem read_indent_size_no_language (editor : Editor) (buffer : Buffer)
    (language_settings : Option String → Option File → LanguageSettings)
    (hb : editor.active_excerpt = some buffer)
    (hl : buffer.language = none) :
    read_indent_size editor language_settings = none := by
  simp [read_indent_size, hb, hl]

/-- Witness for C7: a concrete editor over a language-less buffer yields no
indent size. -/
theorem read_indent_size_no_language_witness :
    read_indent_size
      { file_at_zero := none
        active_excerpt := some { language := none, file := none } }
      (fun _ _ => { tab_size := 4, hard_tabs := false }) = none :=
  read_indent_size_no_language _ { language := none, file := none }
    (fun _ _ => { tab_size := 4, hard_tabs := false }) rfl rfl

/-- C9: every reachable delegate state carries the fixed four-element
candidate list, in order: the toggle entry with sentinel id 16, then the
entries with ids 2, 4, and 8 labeled accordingly; no operation mutates it. -/
theorem reachable_candidates_fixed (s : DelegateState)
    (h : Reachable s) :
    s.candidates =
      [{ id := 16, string := "Toggle Spaces/Tabs" },
       { id := 2, string := "2 spaces" },
       { id := 4, string := "4 spaces" },
       { id := 8, string := "8 spaces" }] := by
  induction h with
  | init e => rfl
  | filter_done m h ih => simpa [filter_complete] using ih
  | select ix hix h ih => simpa [set_selected_index] using ih
  | confirmed r h ih => rw [confirm_state_eq]; exact ih

/-- Witness for C9: the fixed list is present at the freshly constructed
delegate state. -/
theorem reachable_candidates_fixed_witness :
    (new { file_at_zero := none, active_excerpt := none }).candidates =
      [{ id := 16, string := "Toggle Spaces/Tabs" },
       { id := 2, string := "2 spaces" },
       { id := 4, string := "4 spaces" },
       { id := 8, string := "8 spaces" }] :=
  reachable_candidates_fixed _
    (Reachable.init { file_at_zero := none, active_excerpt := none })
